import Mathlib

/-!
Verification of the release-notes pipeline (`changelog_bot.py`,
`customer_release_notes.py`).

The development shallowly embeds the pipeline's pure core:

* a JSON value type and a parser modelling Python's `json.loads` on the
  decision / grouping payloads exchanged with the inference service;
* the regex fallback extraction (`re.search` with the greedy patterns
  found in `filter_customer_worthy` and `group_related_tickets`);
* the classification partitioning, the grouping enrichment with
  placeholder synthesis, the drafting prompt construction, checkpoint
  boundary selection, and the control flow of `main`.

Fallible Python operations (dict subscripts on wrong types, attribute
access on non-strings, file writes) are embedded as `Except String`
results whose `error` case stands for a raised exception.
-/

/-- A JSON value as produced by `json.loads`.  Numbers keep their source
lexeme: the pipeline never consumes numeric values, only compares and
routes structured text.  Objects keep their member list in source order;
Python dict semantics (later duplicate keys overwrite earlier ones) are
recovered by `objGetLast`. -/
inductive Json where
  | null
  | bool (b : Bool)
  | num (lexeme : String)
  | str (s : String)
  | arr (elems : List Json)
  | obj (members : List (String × Json))

/-- `leadsWith needle hay` is true when `needle` is an initial segment of
`hay` (used to lex the `true` / `false` / `null` literals). -/
def leadsWith : List Char → List Char → Bool
  | [], _ => true
  | _ :: _, [] => false
  | a :: as, b :: bs => a = b && leadsWith as bs

/-- The four whitespace characters accepted between JSON tokens by
Python's `json` module. -/
def jsonWs (c : Char) : Bool := c = ' ' || c = '\t' || c = '\n' || c = '\r'

/-- Drop leading JSON whitespace. -/
def skipWs (cs : List Char) : List Char := cs.dropWhile jsonWs

/-- Value of a hexadecimal digit, for `\uXXXX` escapes. -/
def hexVal (c : Char) : Option Nat :=
  if '0' ≤ c ∧ c ≤ '9' then some (c.toNat - 48)
  else if 'a' ≤ c ∧ c ≤ 'f' then some (c.toNat - 87)
  else if 'A' ≤ c ∧ c ≤ 'F' then some (c.toNat - 55)
  else none

/-- Parse the body of a JSON string after the opening quote, returning the
decoded characters and the input following the closing quote.  Escapes and
the rejection of raw control characters follow `json.loads` in its default
strict mode.  `fuel` bounds the recursion; callers pass the input length,
and every step consumes at least one character. -/
def pStrBody : Nat → List Char → Option (List Char × List Char)
  | 0, _ => none
  | _ + 1, [] => none
  | fuel + 1, c :: rest =>
    if c = '"' then some ([], rest)
    else if c = '\\' then
      match rest with
      | [] => none
      | e :: rest2 =>
        let cont : Char → List Char → Option (List Char × List Char) := fun ch rs =>
          match pStrBody fuel rs with
          | some (body, rem) => some (ch :: body, rem)
          | none => none
        if e = '"' then cont '"' rest2
        else if e = '\\' then cont '\\' rest2
        else if e = '/' then cont '/' rest2
        else if e = 'b' then cont (Char.ofNat 8) rest2
        else if e = 'f' then cont (Char.ofNat 12) rest2
        else if e = 'n' then cont '\n' rest2
        else if e = 'r' then cont '\r' rest2
        else if e = 't' then cont '\t' rest2
        else if e = 'u' then
          match rest2 with
          | h1 :: h2 :: h3 :: h4 :: rest3 =>
            match hexVal h1, hexVal h2, hexVal h3, hexVal h4 with
            | some a, some b, some c2, some d2 =>
              cont (Char.ofNat (((a * 16 + b) * 16 + c2) * 16 + d2)) rest3
            | _, _, _, _ => none
          | _ => none
        else none
    else if c.toNat < 32 then none
    else
      match pStrBody fuel rest with
      | some (body, rem) => some (c :: body, rem)
      | none => none

/-- Decimal digit test for the JSON number grammar. -/
def isDigitCh (c : Char) : Bool := '0' ≤ c && c ≤ '9'

/-- Parse the optional fraction and exponent of a JSON number, returning
the consumed lexeme characters and the rest. -/
def pNumTail (cs : List Char) : Option (List Char × List Char) :=
  let fracRes : Option (List Char × List Char) :=
    match cs with
    | '.' :: r =>
      let ds := r.takeWhile isDigitCh
      if ds.isEmpty then none else some ('.' :: ds, r.dropWhile isDigitCh)
    | _ => some ([], cs)
  match fracRes with
  | none => none
  | some (fr, cs2) =>
    match cs2 with
    | e :: r2 =>
      if e = 'e' || e = 'E' then
        let sgnAnd : List Char × List Char :=
          match r2 with
          | '+' :: rr => (['+'], rr)
          | '-' :: rr => (['-'], rr)
          | _ => ([], r2)
        let ds := sgnAnd.2.takeWhile isDigitCh
        if ds.isEmpty then none
        else some (fr ++ e :: sgnAnd.1 ++ ds, sgnAnd.2.dropWhile isDigitCh)
      else some (fr, cs2)
    | [] => some (fr, cs2)

/-- Parse a JSON number (RFC 8259 grammar, as enforced by `json.loads`):
optional minus, an integer part with no leading zero, optional fraction,
optional exponent. -/
def pNum (cs : List Char) : Option (List Char × List Char) :=
  let signAnd : List Char × List Char :=
    match cs with
    | '-' :: r => (['-'], r)
    | _ => ([], cs)
  match signAnd.2 with
  | c :: r =>
    if c = '0' then
      match pNumTail r with
      | some (tail, rest) => some (signAnd.1 ++ c :: tail, rest)
      | none => none
    else if isDigitCh c then
      let ds := (c :: r).takeWhile isDigitCh
      match pNumTail ((c :: r).dropWhile isDigitCh) with
      | some (tail, rest) => some (signAnd.1 ++ ds ++ tail, rest)
      | none => none
    else none
  | [] => none

mutual
/-- Parse one JSON value, returning it with the unconsumed input.  `fuel`
decreases at every (mutual) recursive call; `parseJsonList` supplies more
fuel than any input can use. -/
def pVal : Nat → List Char → Option (Json × List Char)
  | 0, _ => none
  | fuel + 1, cs =>
    match skipWs cs with
    | [] => none
    | c :: rest =>
      if c = '"' then
        match pStrBody (rest.length + 1) rest with
        | some (body, rem) => some (.str (String.mk body), rem)
        | none => none
      else if c = '[' then
        match skipWs rest with
        | ']' :: rem => some (.arr [], rem)
        | _ =>
          match pElems fuel rest with
          | some (els, rem) => some (.arr els, rem)
          | none => none
      else if c = '{' then
        match skipWs rest with
        | '}' :: rem => some (.obj [], rem)
        | _ =>
          match pPairs fuel rest with
          | some (fs, rem) => some (.obj fs, rem)
          | none => none
      else if leadsWith "true".data (c :: rest) then some (.bool true, (c :: rest).drop 4)
      else if leadsWith "false".data (c :: rest) then some (.bool false, (c :: rest).drop 5)
      else if leadsWith "null".data (c :: rest) then some (.null, (c :: rest).drop 4)
      else
        match pNum (c :: rest) with
        | some (lex, rem) => some (.num (String.mk lex), rem)
        | none => none

/-- Parse the comma-separated elements of a non-empty array, up to and
including the closing bracket. -/
def pElems : Nat → List Char → Option (List Json × List Char)
  | 0, _ => none
  | fuel + 1, cs =>
    match pVal fuel cs with
    | none => none
    | some (j, rem) =>
      match skipWs rem with
      | ',' :: rem2 =>
        match pElems fuel rem2 with
        | some (els, rem3) => some (j :: els, rem3)
        | none => none
      | ']' :: rem2 => some ([j], rem2)
      | _ => none

/-- Parse the members of a non-empty object, up to and including the
closing brace. -/
def pPairs : Nat → List Char → Option (List (String × Json) × List Char)
  | 0, _ => none
  | fuel + 1, cs =>
    match skipWs cs with
    | '"' :: rest =>
      match pStrBody (rest.length + 1) rest with
      | none => none
      | some (key, rem) =>
        match skipWs rem with
        | ':' :: rem2 =>
          match pVal fuel rem2 with
          | none => none
          | some (v, rem3) =>
            match skipWs rem3 with
            | ',' :: rem4 =>
              match pPairs fuel rem4 with
              | some (fs, rem5) => some ((String.mk key, v) :: fs, rem5)
              | none => none
            | '}' :: rem4 => some ([(String.mk key, v)], rem4)
            | _ => none
        | _ => none
    | _ => none
end

/-- Model of `json.loads` on a character list: parse one value and require
that at most whitespace follows (anything else is Python's `Extra data`
error, modelled as `none`). -/
def parseJsonList (cs : List Char) : Option Json :=
  match pVal (2 * cs.length + 2) cs with
  | some (j, rem) => if (skipWs rem).isEmpty then some j else none
  | none => none

/-- Everything from the first occurrence of `target` onward, or `none`
when `target` does not occur. -/
def fromFirst (target : Char) : List Char → Option (List Char)
  | [] => none
  | c :: cs => if c = target then some (c :: cs) else fromFirst target cs

/-- The substring matched by the greedy regexes of the two parse
fallbacks (pattern `lb` + `anything*` + `rb`, as in the source's
bracket- and brace-delimited searches): from the first `lb` through the
last `rb` after it, or `none` when there is no match. -/
def extractDelim (lb rb : Char) (cs : List Char) : Option (List Char) :=
  match fromFirst lb cs with
  | none => none
  | some t =>
    match fromFirst rb t.reverse with
    | none => none
    | some u => some u.reverse

/-- The classifier's two-tier response parse (`filter_customer_worthy`,
lines 245-258): direct `json.loads`, then on failure extraction of the
first-to-last bracket-delimited substring and a second `json.loads`.
`none` is the total-failure case. -/
def twoTierArr (cs : List Char) : Option Json :=
  match parseJsonList cs with
  | some j => some j
  | none =>
    match extractDelim '[' ']' cs with
    | some sub => parseJsonList sub
    | none => none

/-- The grouper's two-tier response parse (`group_related_tickets`,
lines 377-388), identical but brace-delimited. -/
def twoTierObj (cs : List Char) : Option Json :=
  match parseJsonList cs with
  | some j => some j
  | none =>
    match extractDelim '{' '}' cs with
    | some sub => parseJsonList sub
    | none => none

/-- Last-wins lookup in a JSON object's member list: the value Python's
dict holds for `key` after `json.loads` built it (later duplicates
overwrite earlier ones). -/
def objGetLast (members : List (String × Json)) (key : String) : Option Json :=
  match members with
  | [] => none
  | kv :: rest =>
    match objGetLast rest key with
    | some v => some v
    | none => if kv.1 = key then some kv.2 else none

/-- `v == s` for a JSON value against a Python string: true exactly when
`v` is that string (Python `==` between a string and any non-string JSON
value is false). -/
def jsonIsStr (v : Json) (s : String) : Bool :=
  match v with
  | .str t => t = s
  | _ => false

/-- True for JSON values Python can use as dict keys; lists and dicts are
unhashable and make `d['id']`-keyed dict construction raise. -/
def jsonHashable : Json → Bool
  | .arr _ => false
  | .obj _ => false
  | _ => true

/-- A normalized ticket, projected to the fields the embedded pipeline
stages read (`id`, `title`, `description`); the remaining fetched fields
(assignee, project, labels, comments, timestamps) only feed prompt text
for the external inference calls. -/
structure IssueR where
  id : String
  title : String
  description : Option String

/-- One element of the model's parsed decision array, projected to the
keys `filter_customer_worthy` consults: the mandatory `id` (raw JSON
value, line 261) and the optional `decision` / `reason` (lines 269-270).
-/
structure DecisionEntry where
  id : Json
  decision : Option Json
  reason : Option Json

/-- Apply a fallible conversion to every list element, stopping at the
first raised error, as a Python comprehension does. -/
def exceptMap (f : α → Except String β) : List α → Except String (List β)
  | [] => .ok []
  | x :: xs =>
    match f x with
    | .error e => .error e
    | .ok y =>
      match exceptMap f xs with
      | .error e => .error e
      | .ok ys => .ok (y :: ys)

/-- Python iteration over a JSON value where a list is expected: lists
yield their elements, strings their characters (as 1-character strings),
dicts their keys; other values raise `TypeError`.  An empty string or
dict iterates zero times and succeeds. -/
def pyIterate : Json → Except String (List Json)
  | .arr xs => .ok xs
  | .str s => .ok (s.data.map fun ch => Json.str (String.mk [ch]))
  | .obj fs => .ok (fs.map fun kv => Json.str kv.1)
  | _ => .error "TypeError: not iterable"

/-- One step of the dict comprehension at line 261: `d['id']` demands a
dict with a hashable `id` key (otherwise Python raises `TypeError` or
`KeyError`); the `decision` / `reason` keys are read later with `.get`
and so stay optional. -/
def toDecisionEntry : Json → Except String DecisionEntry
  | .obj fs =>
    match objGetLast fs "id" with
    | none => .error "KeyError: id"
    | some v =>
      if jsonHashable v then .ok ⟨v, objGetLast fs "decision", objGetLast fs "reason"⟩
      else .error "TypeError: unhashable type"
  | _ => .error "TypeError: element is not a dict"

/-- `decisions` converted from parsed JSON exactly as the dict
comprehension `d['id']: d for d in decisions` consumes it: the payload
is iterated (so an empty string or dict yields zero entries and
succeeds), and every element must be an object carrying a hashable
`id`; anything else raises, modelled as `error`. -/
def jsonToDecisions (j : Json) : Except String (List DecisionEntry) :=
  match pyIterate j with
  | .error e => .error e
  | .ok items => exceptMap toDecisionEntry items

/-- `decision_map.get(issue['id'], ...)` (line 261/268): the entry the
Python dict keyed by `d['id']` holds for the ticket id, with later
duplicate ids overwriting earlier ones. -/
def lookupDecision (ds : List DecisionEntry) (tid : String) : Option DecisionEntry :=
  match ds with
  | [] => none
  | e :: rest =>
    match lookupDecision rest tid with
    | some r => some r
    | none => if jsonIsStr e.id tid then some e else none

/-- `d.get('decision', 'exclude')` for a looked-up entry. -/
def entryDecision (e : DecisionEntry) : Json :=
  match e.decision with
  | some v => v
  | none => Json.str "exclude"

/-- `d.get('reason', 'No reason given')` for a looked-up entry. -/
def entryReason (e : DecisionEntry) : Json :=
  match e.reason with
  | some v => v
  | none => Json.str "No reason given"

/-- The decision value used for a ticket id (lines 268-269): the entry's
`decision` when the id has an entry, the default `'exclude'` otherwise.
-/
def decisionOf (ds : List DecisionEntry) (tid : String) : Json :=
  match lookupDecision ds tid with
  | some e => entryDecision e
  | none => Json.str "exclude"

/-- The reason attached to a ticket id (line 270): the entry's `reason`
when the id has an entry, the sentinel `'No reason given'` otherwise. -/
def reasonOf (ds : List DecisionEntry) (tid : String) : Json :=
  match lookupDecision ds tid with
  | some e => entryReason e
  | none => Json.str "No reason given"

/-- `issue_with_reason` (line 272): the ticket plus its attached reason.
-/
structure ClassifiedIssue where
  issue : IssueR
  reason : Json

/-- The classifier's result dict (lines 281-286). -/
structure Partitions where
  features : List ClassifiedIssue
  fixes : List ClassifiedIssue
  excluded : List ClassifiedIssue
  decisions : List DecisionEntry

/-- The partitioning loop of `filter_customer_worthy` (lines 263-286):
every input ticket is routed by its decision value into features
(`== 'feature'`), fixes (`== 'fix'`) or excluded (everything else),
keeping input order. -/
def classifyDecisions (issues : List IssueR) (ds : List DecisionEntry) : Partitions :=
  match issues with
  | [] => ⟨[], [], [], ds⟩
  | i :: rest =>
    let p := classifyDecisions rest ds
    let ci : ClassifiedIssue := ⟨i, reasonOf ds i.id⟩
    if jsonIsStr (decisionOf ds i.id) "feature" then
      ⟨ci :: p.features, p.fixes, p.excluded, p.decisions⟩
    else if jsonIsStr (decisionOf ds i.id) "fix" then
      ⟨p.features, ci :: p.fixes, p.excluded, p.decisions⟩
    else
      ⟨p.features, p.fixes, ci :: p.excluded, p.decisions⟩

/-- The two shapes `filter_customer_worthy` can return: the bare empty
list of the empty-input early return (line 93-94), or the
features/fixes/excluded/decisions dict of every other path. -/
inductive FilterResult where
  | emptyList
  | partitions (p : Partitions)

/-- `filter_customer_worthy(issues)` (lines 90-286), with the stripped
text of the model response as second argument (the one inference call is
the external boundary).  On empty input it returns the bare `[]`; on
total parse failure it returns empty partitions; a parsed payload that is
not a list of id-carrying dicts raises while building `decision_map`. -/
def filter_customer_worthy (issues : List IssueR) (responseText : String) :
    Except String FilterResult :=
  if issues.isEmpty then .ok .emptyList
  else
    match twoTierArr responseText.data with
    | none => .ok (.partitions ⟨[], [], [], []⟩)
    | some j =>
      match jsonToDecisions j with
      | .error e => .error e
      | .ok ds => .ok (.partitions (classifyDecisions issues ds))

/-- Number of inference calls `filter_customer_worthy` makes: the empty
input early return (lines 93-94) precedes the single batched
`client.messages.create` call (line 233), which every non-empty input
reaches exactly once. -/
def filterInferenceCalls (issues : List IssueR) : Nat :=
  if issues.isEmpty then 0 else 1

/-- The exclusion-reason keywords that rescue an excluded ticket as
backend context for grouping (line 302). -/
def backendKeywords : List String := ["backend", "endpoint", "api", "schema"]

/-- `needle in hay` on character lists (Python substring containment). -/
def hasSub (needle : List Char) : List Char → Bool
  | [] => needle.isEmpty
  | c :: rest => leadsWith needle (c :: rest) || hasSub needle rest

/-- `.lower()` on a JSON value: succeeds only on strings; on anything
else Python raises `AttributeError`. -/
def pyLower (v : Json) : Except String String :=
  match v with
  | .str s => .ok (String.mk (s.data.map Char.toLower))
  | _ => .error "AttributeError: lower"

/-- Whether a lowercased exclusion reason mentions any infrastructure
keyword (line 302). -/
def isBackendReason (s : String) : Bool :=
  backendKeywords.any fun kw => hasSub kw.data s.data

/-- The `potential_backend` comprehension (lines 300-303): excluded
tickets whose lowercased reason mentions a backend keyword, in order;
a non-string reason raises at its element. -/
def potentialBackend : List ClassifiedIssue → Except String (List ClassifiedIssue)
  | [] => .ok []
  | e :: rest =>
    match pyLower e.reason with
    | .error msg => .error msg
    | .ok sLower =>
      match potentialBackend rest with
      | .error msg => .error msg
      | .ok rest2 => .ok (if isBackendReason sLower then e :: rest2 else rest2)

/-- An entry of an enriched group's `tickets` list or of
`ungrouped_fixes`: a full ticket dict, the synthesized placeholder dict
(`id`, title `"Unknown"`), or — only on the grouper's total-parse-failure
fallback — a bare id string. -/
inductive TicketVal where
  | known (t : ClassifiedIssue)
  | stub (id : Json)
  | rawId (s : String)

/-- `all_by_id.get(tid, ...)` (line 391): the candidate ticket the dict
keyed by `t['id']` holds for the id, later duplicates overwriting
earlier ones. -/
def dictGetTicket (ts : List ClassifiedIssue) (tid : String) : Option ClassifiedIssue :=
  match ts with
  | [] => none
  | t :: rest =>
    match dictGetTicket rest tid with
    | some r => some r
    | none => if t.issue.id = tid then some t else none

/-- Resolution of one referenced ticket id (lines 397 and 401):
`all_by_id.get(tid, dict(id=tid, title='Unknown'))`.  A hashable
non-string id never matches a candidate (all candidate ids are strings)
and synthesizes the placeholder; an unhashable id (a JSON array or
object) makes the dict lookup itself raise `TypeError`. -/
def resolveVal (all : List ClassifiedIssue) (tid : Json) : Except String TicketVal :=
  match tid with
  | .str s =>
    match dictGetTicket all s with
    | some t => .ok (.known t)
    | none => .ok (.stub (.str s))
  | .arr _ => .error "TypeError: unhashable type"
  | .obj _ => .error "TypeError: unhashable type"
  | other => .ok (.stub other)

/-- One parsed (pre-enrichment) group: `group['name']` (mandatory),
`group.get('summary', '')`, `group.get('tickets', [])`. -/
structure ParsedGroup where
  name : Json
  summary : Json
  tickets : List Json

/-- The parsed grouping payload before enrichment: the `groups` list and
the raw `ungrouped_fixes` id list. -/
structure ParsedGrouping where
  groups : List ParsedGroup
  ungrouped : List Json

/-- One group read from the parsed payload (lines 393-398):
`group['name']` raises `KeyError` when absent and `TypeError` when the
element is not a dict; `summary` defaults to `''`; `tickets` defaults to
`[]` and is iterated. -/
def toParsedGroup : Json → Except String ParsedGroup
  | .obj fs =>
    match objGetLast fs "name" with
    | none => .error "KeyError: name"
    | some nm =>
      let summary :=
        match objGetLast fs "summary" with
        | some s => s
        | none => Json.str ""
      let ticketsJ :=
        match objGetLast fs "tickets" with
        | some t => t
        | none => Json.arr []
      match pyIterate ticketsJ with
      | .error e => .error e
      | .ok tids => .ok ⟨nm, summary, tids⟩
  | _ => .error "TypeError: indices must be strings"

/-- The parsed grouping payload consumed as lines 390-401 do:
`result.get('groups', [])` and `result.get('ungrouped_fixes', [])` on the
decoded value (raising `AttributeError` when it is not a dict), each
iterated, each group element converted by `toParsedGroup`. -/
def toParsedGrouping : Json → Except String ParsedGrouping
  | .obj fs =>
    let groupsJ :=
      match objGetLast fs "groups" with
      | some g => g
      | none => Json.arr []
    let ungJ :=
      match objGetLast fs "ungrouped_fixes" with
      | some u => u
      | none => Json.arr []
    match pyIterate groupsJ with
    | .error e => .error e
    | .ok gels =>
      match exceptMap toParsedGroup gels with
      | .error e => .error e
      | .ok pgs =>
        match pyIterate ungJ with
        | .error e => .error e
        | .ok tids => .ok ⟨pgs, tids⟩
  | _ => .error "AttributeError: get"

/-- An enriched group (lines 394-398): name, summary and the member ids
resolved to ticket values. -/
structure EnrichedGroup where
  name : Json
  summary : Json
  tickets : List TicketVal

/-- The grouper's result dict (lines 403-406). -/
structure GroupResult where
  groups : List EnrichedGroup
  ungrouped_fixes : List TicketVal

/-- Enrichment of one parsed group (lines 394-398): every member id
goes through `resolveVal`, stopping at the first raised `TypeError`. -/
def enrichGroup (all : List ClassifiedIssue) (g : ParsedGroup) : Except String EnrichedGroup :=
  match exceptMap (resolveVal all) g.tickets with
  | .error e => .error e
  | .ok tks => .ok ⟨g.name, g.summary, tks⟩

/-- The enrichment of a parsed grouping against the candidate set
(lines 390-401): every referenced id in every group and then in
`ungrouped_fixes` goes through `resolveVal`; an unhashable id raises
out of the comprehension. -/
def enrichGrouping (all : List ClassifiedIssue) (pg : ParsedGrouping) :
    Except String GroupResult :=
  match exceptMap (enrichGroup all) pg.groups with
  | .error e => .error e
  | .ok gs =>
    match exceptMap (resolveVal all) pg.ungrouped with
    | .error e => .error e
    | .ok ung => .ok ⟨gs, ung⟩

/-- `group_related_tickets(categorized)` (lines 289-406), with the
stripped model response as last argument.  Empty feature and fix sets
short-circuit; excluded tickets with backend-keyword reasons join the
candidate set; on total parse failure the fallback returns zero groups
and the raw fix ids (lines 386 and 388); a parsed payload is enriched
with placeholder synthesis. -/
def group_related_tickets (features fixes excluded : List ClassifiedIssue)
    (responseText : String) : Except String GroupResult :=
  if features.isEmpty && fixes.isEmpty then .ok ⟨[], []⟩
  else
    match potentialBackend excluded with
    | .error e => .error e
    | .ok backend =>
      let allTickets := features ++ fixes ++ backend
      match twoTierObj responseText.data with
      | none => .ok ⟨[], fixes.map fun t => .rawId t.issue.id⟩
      | some j =>
        match toParsedGrouping j with
        | .error e => .error e
        | .ok pg => enrichGrouping allTickets pg

/-- Python slicing `s[:n]`. -/
def strTake (s : String) (n : Nat) : String := String.mk (s.data.take n)

/-- `t.get('description') or 'No description'`: a missing, `None` or
empty description falls back to the default (Python `or` treats the
empty string as false). -/
def pyOrDesc (d : Option String) : String :=
  match d with
  | some s => if s = "" then "No description" else s
  | none => "No description"

/-- `'sep'.join(parts)`. -/
def joinSep (sep : String) : List String → String
  | [] => ""
  | [x] => x
  | x :: rest => x ++ sep ++ joinSep sep rest

/-- The text Python's f-string interpolation produces for a JSON value
used as prose (group names and summaries).  Strings appear verbatim —
the only case the pipeline's own grouping responses produce; the
renderings of the remaining cases are abbreviated, which affects prompt
text only. -/
def jsonDisplay : Json → String
  | .str s => s
  | .num n => n
  | .bool true => "True"
  | .bool false => "False"
  | .null => "None"
  | .arr _ => "[...]"
  | .obj _ => "\x7b...\x7d"

/-- `format_ticket` of `draft_release_notes` (lines 434-438) applied to a
full ticket dict: title plus description capped at 1000 characters. -/
def formatTicketKnown (t : ClassifiedIssue) : String :=
  "Title: " ++ t.issue.title ++ "\n" ++
    "Description: " ++ strTake (pyOrDesc t.issue.description) 1000

/-- `format_ticket` applied to an `ungrouped_fixes` entry.  A placeholder
dict formats with title `Unknown` and no description; a bare id string —
the grouper's total-parse-failure fallback shape — makes `t['title']`
raise `TypeError` (string indices must be integers). -/
def formatTicketVal : TicketVal → Except String String
  | .known t => .ok (formatTicketKnown t)
  | .stub _ => .ok ("Title: Unknown\n" ++ "Description: No description")
  | .rawId _ => .error "TypeError: string indices must be integers"

/-- One line of a group's member list (lines 423-426): title and
description capped at 800 characters; the same `TypeError` applies to a
bare id string. -/
def formatGroupLine : TicketVal → Except String String
  | .known t => .ok ("  - " ++ t.issue.title ++ ": " ++ strTake (pyOrDesc t.issue.description) 800)
  | .stub _ => .ok "  - Unknown: No description"
  | .rawId _ => .error "TypeError: string indices must be integers"

/-- `format_group` (lines 422-431): group header, summary and member
lines. -/
def formatGroup (g : EnrichedGroup) : Except String String :=
  match exceptMap formatGroupLine g.tickets with
  | .error e => .error e
  | .ok lines =>
    .ok ("GROUP: " ++ jsonDisplay g.name ++ "\n" ++
      "Summary: " ++ jsonDisplay g.summary ++ "\n" ++
      "Related tickets:\n" ++ joinSep "\n" lines)

/-- `draft_release_notes(categorized, grouped_data)` (lines 409-549)
up to the external inference call: the empty-input early return and the
construction of the dynamic prompt sections (`features_text` from the
groups, or from the raw features when no groups exist; `fixes_text` from
`ungrouped_fixes` when non-empty, else from the raw fixes).  The value
returned on success is the dynamic tail of the prompt; the model's
free-form reply to it is the external boundary. -/
def draft_release_notes (features fixes : List ClassifiedIssue) (gr : GroupResult) :
    Except String String :=
  if features.isEmpty && fixes.isEmpty then .ok ""
  else
    let featuresTextE : Except String String :=
      if gr.groups.isEmpty then
        .ok (if features.isEmpty then "None" else joinSep "\n\n" (features.map formatTicketKnown))
      else
        match exceptMap formatGroup gr.groups with
        | .error e => .error e
        | .ok gs => .ok (joinSep "\n\n" gs)
    match featuresTextE with
    | .error e => .error e
    | .ok ftext =>
      let fixesTextE : Except String String :=
        if gr.ungrouped_fixes.isEmpty then
          .ok (if fixes.isEmpty then "None" else joinSep "\n\n" (fixes.map formatTicketKnown))
        else
          match exceptMap formatTicketVal gr.ungrouped_fixes with
          | .error e => .error e
          | .ok ls => .ok (joinSep "\n\n" ls)
      match fixesTextE with
      | .error e => .error e
      | .ok xtext =>
        .ok ("FEATURE GROUPS (each group = ONE bullet point):\n" ++ ftext ++
          "\n\nBUG FIX / QOL TICKETS:\n" ++ xtext)

/-- Python `str.strip()` whitespace set. -/
def pyWs (c : Char) : Bool :=
  c = ' ' || c = '\t' || c = '\n' || c = '\r' || c = Char.ofNat 11 || c = Char.ofNat 12

/-- Python `s.strip()`. -/
def stripPy (s : String) : String :=
  String.mk (((s.data.dropWhile pyWs).reverse.dropWhile pyWs).reverse)

/-- Python truthiness of an optional string (`os.getenv` / a loaded
checkpoint): `None` and the empty string are false. -/
def pyTruthy (o : Option String) : Bool :=
  match o with
  | some s => !(s = "")
  | none => false

/-- The boundary selection of `changelog_bot.main` (lines 599-612): the
stripped `START_DATE` override when truthy, else the stored checkpoint
when truthy, else the default boundary.  The third argument embeds the
external `datetime.now() - timedelta(days=7)` formatted as `YYYY-MM-DD`
(the 7-day first-run lookback). -/
def changelogSince (override lastRun : Option String) (sevenDaysAgo : String) : String :=
  match override with
  | some s => if s = "" then
      (match lastRun with
       | some c => if c = "" then sevenDaysAgo else c
       | none => sevenDaysAgo)
    else stripPy s
  | none =>
    match lastRun with
    | some c => if c = "" then sevenDaysAgo else c
    | none => sevenDaysAgo

/-- The boundary selection of `customer_release_notes.main`
(lines 270-275): the explicit `since_date` argument when truthy, else
the stored checkpoint when truthy, else the 7-day default (same external
embedding of `datetime.now() - timedelta(days=7)`). -/
def customerNotesSince (sinceDate lastRun : Option String) (sevenDaysAgo : String) : String :=
  if pyTruthy sinceDate then
    (match sinceDate with
     | some s => s
     | none => sevenDaysAgo)
  else if pyTruthy lastRun then
    (match lastRun with
     | some c => c
     | none => sevenDaysAgo)
  else sevenDaysAgo

/-- `save_last_run(timestamp)` (lines 28-31): open the state file for
writing and dump `last_run: timestamp`.  The write is wrapped in no
handler, so an unavailable persistence layer (modelled by
`writeOk = false`) raises to the caller; on success the stored record is
returned. -/
def save_last_run (writeOk : Bool) (timestamp : String) : Except String Json :=
  if writeOk then .ok (Json.obj [("last_run", Json.str timestamp)])
  else .error "OSError: state file write failed"

/-- One line of `main`'s stage-4 ungrouped-fixes print loop
(lines 689-692): `ticket.get('title', ticket.get('id', 'Unknown'))`.
Ticket and placeholder dicts print their title; a bare id string — the
grouper's total-parse-failure fallback shape — makes `.get` raise
`AttributeError` before drafting is ever reached. -/
def printTicketLine : TicketVal → Except String String
  | .known t => .ok t.issue.title
  | .stub _ => .ok "Unknown"
  | .rawId _ => .error "AttributeError: get"

/-- What a completed (or early-returned) `changelog_bot.main` run did:
the selected boundary, the timestamp handed to `save_last_run` (when
reached), the delivered draft text and whether `send_to_slack` ran. -/
structure MainOutcome where
  since : String
  saved : Option String
  drafted : Option String
  sendAttempted : Bool

/-- The control flow of `changelog_bot.main` (lines 594-715) over its
external inputs: the `START_DATE` override, the stored checkpoint, the
default boundary, today's date, the fetched issues and the three model
response texts.  An empty fetch and an all-excluded classification
return before drafting, delivery and `save_last_run`; the stage-4
summary printing (lines 689-692) runs between grouping and drafting and
can itself raise; every completed run sends and then saves today's
date. -/
def mainRun (override lastRun : Option String) (sevenDaysAgo today : String)
    (fetched : List IssueR) (classifyResp groupResp draftResp : String) :
    Except String MainOutcome :=
  let since := changelogSince override lastRun sevenDaysAgo
  if fetched.isEmpty then .ok ⟨since, none, none, false⟩
  else
    match filter_customer_worthy fetched classifyResp with
    | .error e => .error e
    | .ok .emptyList => .error "AttributeError: get"
    | .ok (.partitions p) =>
      if p.features.isEmpty && p.fixes.isEmpty then .ok ⟨since, none, none, false⟩
      else
        match group_related_tickets p.features p.fixes p.excluded groupResp with
        | .error e => .error e
        | .ok gr =>
          match exceptMap printTicketLine gr.ungrouped_fixes with
          | .error e => .error e
          | .ok _printed =>
            match draft_release_notes p.features p.fixes gr with
            | .error e => .error e
            | .ok _prompt => .ok ⟨since, some today, some draftResp, true⟩

/-! ### Concrete fixtures used by the witnesses and counterexamples -/

/-- A feature-shaped ticket. -/
def issueA : IssueR := ⟨"a", "Add CSV export", some "Adds CSV export"⟩

/-- A fix-shaped ticket. -/
def issueF : IssueR := ⟨"f1", "Fix toast typo", none⟩

/-- `issueF` after classification as a fix with reason `"r"`. -/
def cfF : ClassifiedIssue := ⟨issueF, Json.str "r"⟩

/-- A classifier response marking `issueA` a feature. -/
def classifyRespFeature : String :=
  "[\x7b\"id\": \"a\", \"decision\": \"feature\", \"reason\": \"new\"\x7d]"

/-- A classifier response marking `issueF` a fix. -/
def classifyRespFix : String :=
  "[\x7b\"id\": \"f1\", \"decision\": \"fix\", \"reason\": \"r\"\x7d]"

/-- A well-formed grouper response putting `issueA` in one group. -/
def groupRespOk : String :=
  "\x7b\"groups\": [\x7b\"name\": \"Export\", \"tickets\": [\"a\"], \"summary\": \"export data\"\x7d], \"ungrouped_fixes\": []\x7d"

/-- The bare decision array of the parse-fallback scenarios. -/
def c8bare : String := "[\x7b\"id\": \"a\", \"decision\": \"fix\", \"reason\": \"r\"\x7d]"

/-- The decision array's interior, between its brackets. -/
def c8mid : List Char := "\x7b\"id\": \"a\", \"decision\": \"fix\", \"reason\": \"r\"\x7d".data

/-- A parsed grouping referencing one known id (`f1`), one unknown id
(`zz`) inside the group, and one unknown id (`q`) ungrouped. -/
def pgMixed : ParsedGrouping :=
  ⟨[⟨Json.str "G", Json.str "s", [Json.str "f1", Json.str "zz"]⟩], [Json.str "q"]⟩

/-- The enrichment of `pgMixed`'s single group against `[cfF]`. -/
def gMixed : EnrichedGroup :=
  ⟨Json.str "G", Json.str "s", [TicketVal.known cfF, TicketVal.stub (Json.str "zz")]⟩

/-- The full enrichment of `pgMixed` against `[cfF]`. -/
def grMixed : GroupResult := ⟨[gMixed], [TicketVal.stub (Json.str "q")]⟩

/-- A parseable grouper response whose group references a nested JSON
array as a ticket id — an unhashable dict key. -/
def groupRespNested : String :=
  "\x7b\"groups\": [\x7b\"name\": \"G\", \"tickets\": [[\"a\"]], \"summary\": \"s\"\x7d], \"ungrouped_fixes\": []\x7d"

/-- A decision entry whose decision is neither `feature` nor `fix`. -/
def entryWontfix : DecisionEntry :=
  ⟨Json.str "a", some (Json.str "wontfix"), some (Json.str "because")⟩

/-- A decision list marking ticket `a` a feature. -/
def dsFeatureA : List DecisionEntry :=
  [⟨Json.str "a", some (Json.str "feature"), some (Json.str "new")⟩]

/-! ### Helper lemmas -/

/-- The classification loop routes every ticket into exactly one
partition: the three partition sizes always sum to the input size. -/
theorem classifyDecisions_lengths (issues : List IssueR) (ds : List DecisionEntry) :
    (classifyDecisions issues ds).features.length + (classifyDecisions issues ds).fixes.length
      + (classifyDecisions issues ds).excluded.length = issues.length := by
  induction issues with
  | nil => rfl
  | cons i rest ih =>
    unfold classifyDecisions
    dsimp only
    split
    · dsimp only; simp only [List.length_cons]; omega
    · split
      · dsimp only; simp only [List.length_cons]; omega
      · dsimp only; simp only [List.length_cons]; omega

/-- A ticket whose decision value is neither `'feature'` nor `'fix'`
lands in the excluded partition, carrying its attached reason. -/
theorem mem_excluded_of_other_decision (issues : List IssueR) (ds : List DecisionEntry)
    (i : IssueR) (hmem : i ∈ issues)
    (hf : jsonIsStr (decisionOf ds i.id) "feature" = false)
    (hx : jsonIsStr (decisionOf ds i.id) "fix" = false) :
    (⟨i, reasonOf ds i.id⟩ : ClassifiedIssue) ∈ (classifyDecisions issues ds).excluded := by
  induction issues with
  | nil => cases hmem
  | cons j rest ih =>
    unfold classifyDecisions
    dsimp only
    rcases List.mem_cons.mp hmem with heq | hmem2
    · subst heq
      rw [hf, hx]
      exact List.mem_cons_self _ _
    · split
      · dsimp only; exact ih hmem2
      · split
        · dsimp only; exact ih hmem2
        · dsimp only; exact List.mem_cons_of_mem _ (ih hmem2)

/-- What a successful candidate-dict lookup returns: a candidate from
the list whose id is the looked-up id. -/
theorem dictGetTicket_eq_some (ts : List ClassifiedIssue) (tid : String)
    (t : ClassifiedIssue) (h : dictGetTicket ts tid = some t) :
    t ∈ ts ∧ t.issue.id = tid := by
  induction ts with
  | nil => cases h
  | cons x rest ih =>
    rcases hrec : dictGetTicket rest tid with _ | r
    · simp only [dictGetTicket, hrec] at h
      split at h
      · cases h
        exact ⟨List.mem_cons_self _ _, by assumption⟩
      · cases h
    · simp only [dictGetTicket, hrec] at h
      cases h
      obtain ⟨h1, h2⟩ := ih hrec
      exact ⟨List.mem_cons_of_mem _ h1, h2⟩

/-- Every element of a successful fallible map is the successful image
of some input element. -/
theorem exceptMap_ok_mem {α β : Type} (f : α → Except String β) (xs : List α) (ys : List β)
    (h : exceptMap f xs = .ok ys) : ∀ y ∈ ys, ∃ x, x ∈ xs ∧ f x = .ok y := by
  induction xs generalizing ys with
  | nil =>
    simp only [exceptMap] at h
    cases h
    intro y hy
    cases hy
  | cons x rest ih =>
    rcases hfx : f x with e | y0
    · rw [exceptMap, hfx] at h
      exact Except.noConfusion h
    · rw [exceptMap, hfx] at h
      rcases hrest : exceptMap f rest with e | ys0
      · rw [hrest] at h
        exact Except.noConfusion h
      · rw [hrest] at h
        cases h
        intro y hy
        rcases List.mem_cons.mp hy with heq | hmem
        · subst heq
          exact ⟨x, List.mem_cons_self _ _, hfx⟩
        · obtain ⟨x2, hx1, hx2⟩ := ih ys0 hrest y hmem
          exact ⟨x2, List.mem_cons_of_mem _ hx1, hx2⟩

/-- A resolution that returns (rather than raising on an unhashable id)
returns a candidate from the set or a placeholder. -/
theorem resolveVal_ok (all : List ClassifiedIssue) (tid : Json) (v : TicketVal)
    (h : resolveVal all tid = .ok v) :
    (∃ t, t ∈ all ∧ v = TicketVal.known t) ∨ (∃ tid2, v = TicketVal.stub tid2) := by
  cases tid with
  | str s =>
    rcases hd : dictGetTicket all s with _ | t
    · simp only [resolveVal, hd] at h
      cases h
      exact Or.inr ⟨Json.str s, rfl⟩
    · simp only [resolveVal, hd] at h
      cases h
      exact Or.inl ⟨t, (dictGetTicket_eq_some all s t hd).1, rfl⟩
  | null =>
    simp only [resolveVal] at h
    cases h
    exact Or.inr ⟨Json.null, rfl⟩
  | bool b =>
    simp only [resolveVal] at h
    cases h
    exact Or.inr ⟨Json.bool b, rfl⟩
  | num n =>
    simp only [resolveVal] at h
    cases h
    exact Or.inr ⟨Json.num n, rfl⟩
  | arr xs => exact Except.noConfusion h
  | obj fs => exact Except.noConfusion h

/-- When every excluded reason is a string (as every reason produced by
the classifier's decision mapping of a parsed payload is when the model
filled the `reason` fields with strings), the backend-rescue
comprehension raises nothing. -/
theorem potentialBackend_isOk (l : List ClassifiedIssue)
    (h : ∀ e ∈ l, ∃ s, e.reason = Json.str s) :
    ∃ b, potentialBackend l = .ok b := by
  induction l with
  | nil => exact ⟨[], rfl⟩
  | cons e rest ih =>
    obtain ⟨s, hs⟩ := h e (List.mem_cons_self _ _)
    obtain ⟨b, hb⟩ := ih fun x hx => h x (List.mem_cons_of_mem _ hx)
    refine ⟨if isBackendReason (String.mk (s.data.map Char.toLower)) then e :: b else b, ?_⟩
    unfold potentialBackend
    rw [hs]
    dsimp only [pyLower]
    rw [hb]

/-- Searching for a character absent from a prefix finds it past the
prefix. -/
theorem fromFirst_append_of_not_mem {c : Char} {xs : List Char} (h : c ∉ xs)
    (ys : List Char) : fromFirst c (xs ++ ys) = fromFirst c ys := by
  induction xs with
  | nil => rfl
  | cons x rest ih =>
    have hx : x ≠ c := fun heq => h (List.mem_cons.mpr (Or.inl heq.symm))
    simp only [List.cons_append, fromFirst, List.append_eq]
    rw [if_neg hx, ih fun hm => h (List.mem_cons_of_mem _ hm)]

/-- The greedy first-delimiter-to-last-delimiter extraction recovers a
delimited payload exactly when the leading prose holds no opening
delimiter and the trailing prose no closing one. -/
theorem extractDelim_of_wrapped (lb rb : Char) (p mid s : List Char)
    (hp : lb ∉ p) (hs : rb ∉ s) :
    extractDelim lb rb (p ++ (lb :: (mid ++ [rb])) ++ s) = some (lb :: (mid ++ [rb])) := by
  have hcons : ∀ (c : Char) (t : List Char), fromFirst c (c :: t) = some (c :: t) := by
    intro c t
    simp [fromFirst]
  have hsrev : rb ∉ s.reverse := by simpa using hs
  have key1 : fromFirst lb (p ++ (lb :: (mid ++ [rb])) ++ s)
      = some (lb :: ((mid ++ [rb]) ++ s)) := by
    rw [List.append_assoc, fromFirst_append_of_not_mem hp, List.cons_append, hcons]
  have e1 : (lb :: ((mid ++ [rb]) ++ s)).reverse = s.reverse ++ (rb :: (mid.reverse ++ [lb])) := by
    simp
  have key2 : fromFirst rb ((lb :: ((mid ++ [rb]) ++ s)).reverse)
      = some (rb :: (mid.reverse ++ [lb])) := by
    rw [e1, fromFirst_append_of_not_mem hsrev, hcons]
  unfold extractDelim
  rw [key1]
  show (match fromFirst rb ((lb :: ((mid ++ [rb]) ++ s)).reverse) with
        | none => none
        | some u => some u.reverse) = some (lb :: (mid ++ [rb]))
  rw [key2]
  show some ((rb :: (mid.reverse ++ [lb])).reverse) = some (lb :: (mid ++ [rb]))
  simp


/-! ### Claims -/

/-- C1 (counterexample): the claimed partition-completeness invariant
`features + fixes + excluded = input` fails as stated, because the
total-parse-failure path returns empty partitions for a non-empty input:
one ticket in, zero tickets across the three partitions out. -/
theorem c1_partition_completeness_counterexample :
    filter_customer_worthy [issueA] "totally not json"
        = .ok (.partitions ⟨[], [], [], []⟩)
    ∧ (Partitions.mk [] [] [] []).features.length + (Partitions.mk [] [] [] []).fixes.length
        + (Partitions.mk [] [] [] []).excluded.length ≠ [issueA].length :=
  ⟨rfl, by decide⟩

/-- C1 (amended): whenever the response parses to a decision list, the
classification loop places every input ticket in exactly one partition,
so the three partition sizes sum to the input size; when both parse
tiers fail, `filter_customer_worthy` instead returns empty partitions
(sum 0, not the input size). -/
theorem c1_partition_completeness :
    (∀ (issues : List IssueR) (ds : List DecisionEntry),
        (classifyDecisions issues ds).features.length
          + (classifyDecisions issues ds).fixes.length
          + (classifyDecisions issues ds).excluded.length = issues.length)
    ∧ (∀ (issues : List IssueR) (resp : String), issues ≠ [] →
        twoTierArr resp.data = none →
        filter_customer_worthy issues resp = .ok (.partitions ⟨[], [], [], []⟩)) := by
  constructor
  · exact classifyDecisions_lengths
  · intro issues resp hne hparse
    have hemp : issues.isEmpty = false := by
      cases issues with
      | nil => exact absurd rfl hne
      | cons a l => rfl
    unfold filter_customer_worthy
    rw [hemp, hparse]
    rfl

/-- C1 (witness): the amended statement applied to a two-ticket input
with one parsed feature decision, and to the one-ticket
total-parse-failure run. -/
theorem c1_partition_completeness_witness :
    (classifyDecisions [issueA, issueF] dsFeatureA).features.length
        + (classifyDecisions [issueA, issueF] dsFeatureA).fixes.length
        + (classifyDecisions [issueA, issueF] dsFeatureA).excluded.length = 2
    ∧ filter_customer_worthy [issueA] "totally not json"
        = .ok (.partitions ⟨[], [], [], []⟩) :=
  ⟨c1_partition_completeness.1 [issueA, issueF] dsFeatureA,
   c1_partition_completeness.2 [issueA] "totally not json" (List.cons_ne_nil _ _) rfl⟩

/-- C2 (counterexample): a ticket whose decision entry is present with
decision `exclude` and an explicitly empty `reason` string is excluded
carrying that empty string, not the non-empty sentinel the claim
asserts. -/
theorem c2_default_decision_counterexample :
    (classifyDecisions [issueA]
          [⟨Json.str "a", some (Json.str "exclude"), some (Json.str "")⟩]).excluded
        = [⟨issueA, Json.str ""⟩]
    ∧ Json.str "" ≠ Json.str "No reason given" :=
  ⟨rfl, by
    intro h
    injection h with h2
    exact absurd h2 (by decide)⟩

/-- C2 (amended): a ticket with no matching decision entry is excluded
with the non-empty sentinel `'No reason given'`; a ticket whose entry's
decision is neither `'feature'` nor `'fix'` is excluded carrying the
entry's own reason (`d.get('reason', ...)`), which is the sentinel only
when the `reason` field is absent. -/
theorem c2_default_decision :
    ∀ (issues : List IssueR) (ds : List DecisionEntry) (i : IssueR),
      i ∈ issues →
      (lookupDecision ds i.id = none →
        (⟨i, Json.str "No reason given"⟩ : ClassifiedIssue)
            ∈ (classifyDecisions issues ds).excluded
          ∧ "No reason given" ≠ "")
      ∧ (∀ e, lookupDecision ds i.id = some e →
          jsonIsStr (entryDecision e) "feature" = false →
          jsonIsStr (entryDecision e) "fix" = false →
          (⟨i, entryReason e⟩ : ClassifiedIssue) ∈ (classifyDecisions issues ds).excluded) := by
  intro issues ds i hmem
  constructor
  · intro hnone
    have hdec : decisionOf ds i.id = Json.str "exclude" := by
      unfold decisionOf
      rw [hnone]
    have hreason : reasonOf ds i.id = Json.str "No reason given" := by
      unfold reasonOf
      rw [hnone]
    have hmem2 := mem_excluded_of_other_decision issues ds i hmem
      (by rw [hdec]; rfl) (by rw [hdec]; rfl)
    rw [hreason] at hmem2
    exact ⟨hmem2, by decide⟩
  · intro e he hf hx
    have hdec : decisionOf ds i.id = entryDecision e := by
      unfold decisionOf
      rw [he]
    have hreason : reasonOf ds i.id = entryReason e := by
      unfold reasonOf
      rw [he]
    have hmem2 := mem_excluded_of_other_decision issues ds i hmem
      (by rw [hdec]; exact hf) (by rw [hdec]; exact hx)
    rwa [hreason] at hmem2

/-- C2 (witness): the amended statement applied to a ticket with no
entry (sentinel reason) and to a ticket with a `wontfix` entry (its own
reason). -/
theorem c2_default_decision_witness :
    ((⟨issueA, Json.str "No reason given"⟩ : ClassifiedIssue)
        ∈ (classifyDecisions [issueA] []).excluded ∧ "No reason given" ≠ "")
    ∧ (⟨issueA, Json.str "because"⟩ : ClassifiedIssue)
        ∈ (classifyDecisions [issueA] [entryWontfix]).excluded :=
  ⟨(c2_default_decision [issueA] [] issueA (List.mem_cons_self _ _)).1 rfl,
   (c2_default_decision [issueA] [entryWontfix] issueA (List.mem_cons_self _ _)).2
     entryWontfix rfl rfl rfl⟩

/-- C3: both entry points select the run boundary by strict three-tier
precedence: a truthy explicit override (stripped in `changelog_bot`,
verbatim in `customer_release_notes`) beats the stored checkpoint, which
beats the default 7-day-lookback boundary. -/
theorem c3_checkpoint_precedence :
    ∀ (o c d : String), o ≠ "" → c ≠ "" →
      (changelogSince (some o) (some c) d = stripPy o
        ∧ changelogSince (some o) none d = stripPy o
        ∧ changelogSince none (some c) d = c
        ∧ changelogSince none none d = d)
      ∧ (customerNotesSince (some o) (some c) d = o
        ∧ customerNotesSince (some o) none d = o
        ∧ customerNotesSince none (some c) d = c
        ∧ customerNotesSince none none d = d) := by
  intro o c d ho hc
  refine ⟨⟨?_, ?_, ?_, ?_⟩, ⟨?_, ?_, ?_, ?_⟩⟩ <;>
    simp [changelogSince, customerNotesSince, pyTruthy, ho, hc]

/-- C3 (witness): the precedence triple at concrete dates. -/
theorem c3_checkpoint_precedence_witness :
    (changelogSince (some "2026-01-15") (some "2026-02-20") "2026-03-25" = "2026-01-15"
      ∧ changelogSince (some "2026-01-15") none "2026-03-25" = "2026-01-15"
      ∧ changelogSince none (some "2026-02-20") "2026-03-25" = "2026-02-20"
      ∧ changelogSince none none "2026-03-25" = "2026-03-25")
    ∧ (customerNotesSince (some "2026-01-15") (some "2026-02-20") "2026-03-25" = "2026-01-15"
      ∧ customerNotesSince (some "2026-01-15") none "2026-03-25" = "2026-01-15"
      ∧ customerNotesSince none (some "2026-02-20") "2026-03-25" = "2026-02-20"
      ∧ customerNotesSince none none "2026-03-25" = "2026-03-25") :=
  c3_checkpoint_precedence "2026-01-15" "2026-02-20" "2026-03-25" (by decide) (by decide)

/-- C4: drafting the grouper's total-parse-failure fallback raises.  The
fallback returns raw id strings in `ungrouped_fixes`; `format_ticket`
subscripts them with `['title']`, a `TypeError` — the composition run
directly by `customer_release_notes.generate_generic_release_notes`
(lines 248-249).  In `changelog_bot.main` the same malformed fallback
crashes the run one step earlier, in the stage-4 print loop
(lines 689-692), where `.get` on a bare id string raises
`AttributeError`.  Either way, one fix ticket plus an unparseable
grouping response ends the pipeline in an exception. -/
theorem c4_draft_of_fallback_raises :
    group_related_tickets [] [cfF] [] "no json at all"
        = .ok ⟨[], [TicketVal.rawId "f1"]⟩
    ∧ draft_release_notes [] [cfF] ⟨[], [TicketVal.rawId "f1"]⟩
        = .error "TypeError: string indices must be integers"
    ∧ mainRun none none "2026-10-05" "2026-10-12" [issueF] classifyRespFix "no json at all" "x"
        = .error "AttributeError: get" :=
  ⟨rfl, rfl, rfl⟩

/-- C5 (counterexample): on total parse failure the grouper's
`ungrouped_fixes` holds the fix tickets' raw id strings, not the fix
ticket objects the claim describes. -/
theorem c5_fallback_counterexample :
    group_related_tickets [] [cfF] [] "I cannot produce JSON here"
        = .ok ⟨[], [TicketVal.rawId "f1"]⟩
    ∧ TicketVal.rawId "f1" ≠ TicketVal.known cfF :=
  ⟨rfl, fun h => TicketVal.noConfusion h⟩

/-- C5 (amended): when both parse tiers fail (and every excluded reason
is a string, so the backend rescue raises nothing), the grouper returns
zero groups and exactly the fix tickets' ids, one per fix in input
order — no feature or backend entry — rather than raising. -/
theorem c5_fallback_returns_fix_ids :
    ∀ (features fixes excluded : List ClassifiedIssue) (resp : String),
      (∀ e ∈ excluded, ∃ s, e.reason = Json.str s) →
      twoTierObj resp.data = none →
      group_related_tickets features fixes excluded resp
        = .ok ⟨[], fixes.map fun t => TicketVal.rawId t.issue.id⟩ := by
  intro f x e resp hstr hparse
  unfold group_related_tickets
  cases hfx : (f.isEmpty && x.isEmpty) with
  | true =>
    have hxnil : x = [] := List.isEmpty_iff.mp ((Bool.and_eq_true _ _).mp hfx).2
    subst hxnil
    rfl
  | false =>
    obtain ⟨b, hb⟩ := potentialBackend_isOk e hstr
    rw [hb, hparse]
    rfl

/-- C5 (witness): the amended fallback shape at a one-fix input. -/
theorem c5_fallback_witness :
    group_related_tickets [] [cfF] [] "I cannot produce JSON here"
        = .ok ⟨[], [TicketVal.rawId "f1"]⟩ :=
  c5_fallback_returns_fix_ids [] [cfF] [] "I cannot produce JSON here"
    (fun e h => absurd h (List.not_mem_nil e)) rfl

/-- C6 (counterexample): resolution is not total: a referenced ticket
id that is itself a JSON array is an unhashable dict key, so
`all_by_id.get(tid, ...)` raises `TypeError` instead of synthesizing a
placeholder, and a parseable grouping response carrying such an id makes
the whole grouper raise. -/
theorem c6_resolution_counterexample :
    resolveVal [cfF] (Json.arr [Json.str "a"]) = .error "TypeError: unhashable type"
    ∧ group_related_tickets [⟨issueA, Json.str "new"⟩] [] [] groupRespNested
        = .error "TypeError: unhashable type" :=
  ⟨rfl, rfl⟩

/-- C6 (amended): every hashable referenced id — in particular every
string id — resolves without exception to the known candidate carrying
that id or to the synthesized placeholder, while an unhashable id (a
JSON array or object) raises `TypeError` at the dict lookup; and in any
enrichment that returns, every entry of every group's member list and
of `ungrouped_fixes` is a known candidate or a placeholder. -/
theorem c6_grouping_closure :
    (∀ (all : List ClassifiedIssue) (tid : Json),
        (jsonHashable tid = true →
          (∃ t, t ∈ all ∧ tid = Json.str t.issue.id
              ∧ resolveVal all tid = .ok (TicketVal.known t))
            ∨ resolveVal all tid = .ok (TicketVal.stub tid))
        ∧ (jsonHashable tid = false →
            resolveVal all tid = .error "TypeError: unhashable type"))
    ∧ (∀ (all : List ClassifiedIssue) (pg : ParsedGrouping) (gr : GroupResult),
        enrichGrouping all pg = .ok gr →
        ∀ v : TicketVal,
          ((∃ g, g ∈ gr.groups ∧ v ∈ g.tickets) ∨ v ∈ gr.ungrouped_fixes) →
          (∃ t, t ∈ all ∧ v = TicketVal.known t) ∨ (∃ tid, v = TicketVal.stub tid)) := by
  constructor
  · intro all tid
    cases tid with
    | str s =>
      refine ⟨fun _ => ?_, fun h => Bool.noConfusion h⟩
      rcases hd : dictGetTicket all s with _ | t
      · right
        simp [resolveVal, hd]
      · left
        obtain ⟨h1, h2⟩ := dictGetTicket_eq_some all s t hd
        exact ⟨t, h1, by rw [h2], by simp [resolveVal, hd]⟩
    | null => exact ⟨fun _ => Or.inr rfl, fun h => Bool.noConfusion h⟩
    | bool b => exact ⟨fun _ => Or.inr rfl, fun h => Bool.noConfusion h⟩
    | num n => exact ⟨fun _ => Or.inr rfl, fun h => Bool.noConfusion h⟩
    | arr xs => exact ⟨fun h => Bool.noConfusion h, fun _ => rfl⟩
    | obj fs => exact ⟨fun h => Bool.noConfusion h, fun _ => rfl⟩
  · intro all pg gr hok v hv
    unfold enrichGrouping at hok
    rcases hgs : exceptMap (enrichGroup all) pg.groups with e | gs
    · rw [hgs] at hok
      exact Except.noConfusion hok
    · rw [hgs] at hok
      rcases hung : exceptMap (resolveVal all) pg.ungrouped with e | ung
      · rw [hung] at hok
        exact Except.noConfusion hok
      · rw [hung] at hok
        cases hok
        rcases hv with ⟨g, hg, hvg⟩ | hu
        · obtain ⟨pg0, _, hg0⟩ := exceptMap_ok_mem (enrichGroup all) pg.groups gs hgs g hg
          unfold enrichGroup at hg0
          rcases htk : exceptMap (resolveVal all) pg0.tickets with e | tks
          · rw [htk] at hg0
            exact Except.noConfusion hg0
          · rw [htk] at hg0
            cases hg0
            obtain ⟨tid, _, hres⟩ :=
              exceptMap_ok_mem (resolveVal all) pg0.tickets tks htk v hvg
            exact resolveVal_ok all tid v hres
        · obtain ⟨tid, _, hres⟩ :=
            exceptMap_ok_mem (resolveVal all) pg.ungrouped ung hung v hu
          exact resolveVal_ok all tid v hres

/-- C6 (witness): a known string id resolves to its candidate, an array
id raises, and an unknown string id inside a returned enrichment is a
placeholder. -/
theorem c6_grouping_closure_witness :
    ((∃ t, t ∈ [cfF] ∧ Json.str "f1" = Json.str t.issue.id
        ∧ resolveVal [cfF] (Json.str "f1") = .ok (TicketVal.known t))
      ∨ resolveVal [cfF] (Json.str "f1") = .ok (TicketVal.stub (Json.str "f1")))
    ∧ resolveVal [cfF] (Json.arr []) = .error "TypeError: unhashable type"
    ∧ ((∃ t, t ∈ [cfF] ∧ TicketVal.stub (Json.str "zz") = TicketVal.known t)
      ∨ (∃ tid, TicketVal.stub (Json.str "zz") = TicketVal.stub tid)) :=
  ⟨(c6_grouping_closure.1 [cfF] (Json.str "f1")).1 rfl,
   (c6_grouping_closure.1 [cfF] (Json.arr [])).2 rfl,
   c6_grouping_closure.2 [cfF] pgMixed grMixed rfl (TicketVal.stub (Json.str "zz"))
     (Or.inl ⟨gMixed,
       by
         show gMixed ∈ [gMixed]
         exact List.mem_cons_self _ _,
       by
         show TicketVal.stub (Json.str "zz")
             ∈ [TicketVal.known cfF, TicketVal.stub (Json.str "zz")]
         exact List.mem_cons_of_mem _ (List.mem_cons_self _ _)⟩)⟩

/-- C7: on an empty ticket list the classifier makes zero inference
calls but returns the bare empty list, not the well-typed
features/fixes/excluded/decisions structure every other path returns
(any caller reading the partition keys off this result would raise
`AttributeError`). -/
theorem c7_empty_input_shape :
    filter_customer_worthy [] "any response" = .ok FilterResult.emptyList
    ∧ FilterResult.emptyList ≠ FilterResult.partitions ⟨[], [], [], []⟩
    ∧ filterInferenceCalls [] = 0 :=
  ⟨rfl, fun h => FilterResult.noConfusion h, rfl⟩

/-- C8 (counterexample): prose that itself contains brackets defeats the
greedy first-bracket-to-last-bracket extraction: the wrapped valid
decision array parses to nothing while the bare array parses fine, so
the claimed equivalence fails. -/
theorem c8_parse_fallback_counterexample :
    twoTierArr ("See [brackets] above: " ++ c8bare).data ≠ parseJsonList c8bare.data
    ∧ parseJsonList c8bare.data
        = some (.arr [.obj [("id", .str "a"), ("decision", .str "fix"), ("reason", .str "r")]]) := by
  constructor
  · have h1 : twoTierArr ("See [brackets] above: " ++ c8bare).data = none := rfl
    have h2 : parseJsonList c8bare.data
        = some (.arr [.obj [("id", .str "a"), ("decision", .str "fix"), ("reason", .str "r")]]) :=
      rfl
    rw [h1, h2]
    exact fun h => Option.noConfusion h
  · rfl

/-- C8 (amended): when the surrounding prose contains no `[` before the
bracket-delimited array text and no `]` after it, and the wrapped text
is not directly decodable, the two-tier parse of the wrapped text yields
exactly what decoding the bare array text yields. -/
theorem c8_parse_fallback :
    ∀ (p mid s : List Char),
      '[' ∉ p → ']' ∉ s →
      parseJsonList (p ++ ('[' :: (mid ++ [']'])) ++ s) = none →
      twoTierArr (p ++ ('[' :: (mid ++ [']'])) ++ s) = parseJsonList ('[' :: (mid ++ [']'])) := by
  intro p mid s hp hs hfail
  unfold twoTierArr
  rw [hfail, extractDelim_of_wrapped '[' ']' p mid s hp hs]

/-- C8 (witness): a decision array wrapped in bracket-free prose parses
through the fallback to the same decisions as the bare array. -/
theorem c8_parse_fallback_witness :
    twoTierArr ("Here are the decisions:\n".data ++ ('[' :: (c8mid ++ [']']))
          ++ "\nLet me know!".data)
        = parseJsonList ('[' :: (c8mid ++ [']']))
    ∧ parseJsonList ('[' :: (c8mid ++ [']']))
        = some (.arr [.obj [("id", .str "a"), ("decision", .str "fix"), ("reason", .str "r")]]) :=
  ⟨c8_parse_fallback "Here are the decisions:\n".data c8mid "\nLet me know!".data
      (by decide) (by decide) rfl,
   rfl⟩

/-- C9 (counterexample): `save_last_run` wraps the state-file write in no
handler, so an unavailable persistence layer propagates the raised
exception to the caller instead of logging and returning. -/
theorem c9_save_counterexample :
    save_last_run false "2026-10-12" = .error "OSError: state file write failed" := rfl

/-- C9 (amended): `save_last_run` has no error handling: a failed write
propagates its exception to the caller; a successful write stores
exactly the `last_run` record. -/
theorem c9_save_propagates :
    ∀ ts : String,
      save_last_run false ts = .error "OSError: state file write failed"
      ∧ save_last_run true ts = .ok (Json.obj [("last_run", Json.str ts)]) :=
  fun _ => ⟨rfl, rfl⟩

/-- C10: a run that fetches zero tickets, or whose classification yields
zero features and zero fixes, returns early with nothing saved, nothing
drafted and no delivery attempt; and any completed run that saved a
checkpoint saved today's date and did so only after drafting and the
delivery attempt. -/
theorem c10_checkpoint_frame :
    ∀ (o c : Option String) (d today : String) (fetched : List IssueR)
      (cResp gResp dResp : String),
      (fetched = [] →
        mainRun o c d today fetched cResp gResp dResp
          = .ok ⟨changelogSince o c d, none, none, false⟩)
      ∧ (∀ p, filter_customer_worthy fetched cResp = .ok (.partitions p) →
          p.features = [] → p.fixes = [] →
          mainRun o c d today fetched cResp gResp dResp
            = .ok ⟨changelogSince o c d, none, none, false⟩)
      ∧ (∀ out, mainRun o c d today fetched cResp gResp dResp = .ok out →
          out.saved ≠ none →
          out.saved = some today ∧ out.drafted = some dResp ∧ out.sendAttempted = true) := by
  intro o c d today fetched cResp gResp dResp
  refine ⟨?_, ?_, ?_⟩
  · intro hfe
    subst hfe
    rfl
  · intro p hfil hf hx
    unfold mainRun
    by_cases hemp : fetched.isEmpty = true
    · rw [if_pos hemp]
    · rw [if_neg hemp]
      simp only [hfil]
      rw [hf, hx]
      rfl
  · intro out hrun hsaved
    unfold mainRun at hrun
    split at hrun
    · cases hrun
      exact absurd rfl hsaved
    · split at hrun
      · cases hrun
      · cases hrun
      · split at hrun
        · cases hrun
          exact absurd rfl hsaved
        · split at hrun
          · cases hrun
          · split at hrun
            · cases hrun
            · split at hrun
              · cases hrun
              · cases hrun
                exact ⟨rfl, rfl, rfl⟩

/-- C10 (witness): the empty fetch, the all-excluded classification, and
a completed run whose outcome saved today's date after drafting and
delivery. -/
theorem c10_checkpoint_frame_witness :
    mainRun none none "2026-10-05" "2026-10-12" [] "x" "y" "z"
        = .ok ⟨"2026-10-05", none, none, false⟩
    ∧ mainRun none none "2026-10-05" "2026-10-12" [issueA] "totally not json" "y" "z"
        = .ok ⟨"2026-10-05", none, none, false⟩
    ∧ ((⟨"2026-10-05", some "2026-10-12", some "the notes", true⟩ : MainOutcome).saved
          = some "2026-10-12"
      ∧ (⟨"2026-10-05", some "2026-10-12", some "the notes", true⟩ : MainOutcome).drafted
          = some "the notes"
      ∧ (⟨"2026-10-05", some "2026-10-12", some "the notes", true⟩ : MainOutcome).sendAttempted
          = true) :=
  ⟨(c10_checkpoint_frame none none "2026-10-05" "2026-10-12" [] "x" "y" "z").1 rfl,
   (c10_checkpoint_frame none none "2026-10-05" "2026-10-12" [issueA]
       "totally not json" "y" "z").2.1 ⟨[], [], [], []⟩ rfl rfl rfl,
   (c10_checkpoint_frame none none "2026-10-05" "2026-10-12" [issueA]
       classifyRespFeature groupRespOk "the notes").2.2
     ⟨"2026-10-05", some "2026-10-12", some "the notes", true⟩ rfl (by simp)⟩
